import Mathlib

/-!
Verification development for the El 32 landing-page scripts (`src/js/main.js`).

The file shallowly embeds the two core subsystems of the script:

* the swipe-driven gallery lightbox (index bookkeeping, pointer-drag state
  machine, distance/velocity commit thresholds), and
* the ambient light-field driver (start/stop loop bookkeeping, epsilon-gated
  style writes, the per-tick drift formulas).

Numbers manipulated by the script (client coordinates, timestamps, widths)
are embedded as rationals; JavaScript array indices and pointer identifiers
as integers / naturals.  `Math.sin` / `Math.cos` are opaque external
functions, so definitions that use them are parameterised by arbitrary
functions `sinF cosF : ℚ → ℚ`.
-/

/-- JavaScript remainder `a % n`: truncated division, result has the sign of
the dividend.  This is `Int.tmod`. -/
def jsMod (a n : Int) : Int := Int.tmod a n

/-- Embeds `setIndex` index normalization from `main.js`:
`index = (nextIndex + tiles.length) % tiles.length`. -/
def setIndexVal (numTiles : Nat) (nextIndex : Int) : Int :=
  jsMod (nextIndex + numTiles) numTiles

/-- State of the lightbox gesture engine: the module-scoped mutable variables
of the lightbox IIFE in `main.js` (`index`, `isOpen`, `pointerDown`,
`startX`, `deltaX`, `startT`, `activePointerId`, `isAnimating`) together with
the fixed tile count. -/
structure GestureState where
  numTiles : Nat
  index : Int
  isOpen : Bool
  pointerDown : Bool
  startX : ℚ
  deltaX : ℚ
  startT : ℚ
  activePointerId : Nat
  isAnimating : Bool
deriving DecidableEq

/-- Observable outcome of a `pointerup`/`pointercancel` delivery.
`noop`: the guard `if (!pointerDown) return` fired.
`blocked`: `animateTo` was entered while `isAnimating` was already true, so
it returned without animating (unreachable from states the handlers produce).
`cancelTo dx opacity`: snap-back animation towards offset `dx` and the given
opacity.  `commitTo dir outX opacity`: slide-out animation towards `outX`
with the given opacity, followed by the index swap in direction `dir`. -/
inductive FinishAction where
  | noop : FinishAction
  | blocked : FinishAction
  | cancelTo : ℚ → ℚ → FinishAction
  | commitTo : Int → ℚ → ℚ → FinishAction
deriving DecidableEq

/-- True exactly on commit outcomes. -/
def isCommit : FinishAction → Bool
  | FinishAction.commitTo _ _ _ => true
  | _ => false

/-- Embeds the helper `clamp(v, min, max) = Math.max(min, Math.min(max, v))`. -/
def clampQ (v lo hi : ℚ) : ℚ := max lo (min hi v)

/-- Embeds `setDragVisual(dx)`: returns the (translation, opacity) pair the
handler writes to the image style.  `iw` is `window.innerWidth`. -/
def setDragVisual (iw dx : ℚ) : ℚ × ℚ :=
  let w := max 320 iw
  let progress := clampQ (|dx| / (w * (9/10))) 0 1
  (dx, 1 - progress * (25/100))

/-- Embeds the `prev()` helper / the `[data-lb-prev]` click handler:
`setIndex(index - 1)` (the handler has no `isOpen` or `isAnimating` guard). -/
def clickPrev (s : GestureState) : GestureState :=
  { s with index := setIndexVal s.numTiles (s.index - 1) }

/-- Embeds the `next()` helper / the `[data-lb-next]` click handler:
`setIndex(index + 1)` (the handler has no `isOpen` or `isAnimating` guard). -/
def clickNext (s : GestureState) : GestureState :=
  { s with index := setIndexVal s.numTiles (s.index + 1) }

/-- Keys the lightbox keydown handler distinguishes. -/
inductive Key where
  | escape : Key
  | arrowLeft : Key
  | arrowRight : Key
  | other : Key
deriving DecidableEq

/-- Embeds the lightbox `keydown` handler: `if (!isOpen) return;` then
Escape closes, ArrowLeft calls `prev()`, ArrowRight calls `next()`.  Note the
handler checks only `isOpen`, not `isAnimating`. -/
def keydown (s : GestureState) (k : Key) : GestureState :=
  if s.isOpen = false then s
  else
    match k with
    | Key.escape => { s with isOpen := false }
    | Key.arrowLeft => clickPrev s
    | Key.arrowRight => clickNext s
    | Key.other => s

/-- Embeds the `pointerdown` handler on the stage:
`if (!isOpen || isAnimating) return;` then start a drag session for the
event's pointer. -/
def pointerdown (s : GestureState) (pid : Nat) (clientX now : ℚ) : GestureState :=
  if s.isOpen = false ∨ s.isAnimating = true then s
  else
    { s with pointerDown := true, activePointerId := pid,
             startX := clientX, deltaX := 0, startT := now }

/-- Embeds the `pointermove` handler:
`if (!pointerDown || e.pointerId !== activePointerId) return;` then
`deltaX = e.clientX - startX`. -/
def pointermove (s : GestureState) (pid : Nat) (clientX : ℚ) : GestureState :=
  if s.pointerDown = false ∨ pid ≠ s.activePointerId then s
  else { s with deltaX := clientX - s.startX }

/-- Embeds `finishSwipe()` together with the completion of the animation
sequence it triggers.  `iw` is `window.innerWidth`, `now` is
`performance.now()` at the time of the event.  The asynchronous
`animateTo`/`transitionend` chain is collapsed to its final effect: on a
commit, the callback runs `next()`/`prev()` (the `setIndex` index update) and
`isAnimating` ends `false`; the first `animateTo` target is recorded in the
returned `FinishAction`.  The `if (isAnimating) return` guard at the top of
`animateTo` is kept: if it fires, no animation or index change happens
(`FinishAction.blocked`). -/
def finishSwipe (iw now : ℚ) (s : GestureState) : GestureState × FinishAction :=
  if s.pointerDown = false then (s, FinishAction.noop)
  else
    let s1 : GestureState := { s with pointerDown := false }
    let w : ℚ := max 320 iw
    let elapsed : ℚ := max 1 (now - s.startT)
    let velocity : ℚ := s.deltaX / elapsed
    if ¬(|s.deltaX| > w * (18/100) ∨ |velocity| > 65/100) then
      if s1.isAnimating = true then (s1, FinishAction.blocked)
      else (s1, FinishAction.cancelTo 0 1)
    else
      let dir : Int := if s.deltaX < 0 then 1 else -1
      let outX : ℚ := if dir = 1 then -w else w
      if s1.isAnimating = true then (s1, FinishAction.blocked)
      else
        ({ s1 with index := setIndexVal s1.numTiles (s1.index + dir) },
         FinishAction.commitTo dir outX (9/10))

/-- Embeds the `pointerup` listener: it is registered as
`stage.addEventListener("pointerup", finishSwipe)`, so the event (and its
pointer id) is ignored entirely. -/
def pointerup (iw now : ℚ) (s : GestureState) (pid : Nat) : GestureState × FinishAction :=
  finishSwipe iw now s

/-- Embeds the `pointercancel` listener, identical wiring to `pointerup`. -/
def pointercancel (iw now : ℚ) (s : GestureState) (pid : Nat) : GestureState × FinishAction :=
  finishSwipe iw now s

/-- Embeds the defensive guards at the top of the lightbox IIFE:
`if (tiles.length === 0 || !lb) return;` and `if (!imgEl || !stage) return;`.
The component initializes (handlers are attached) exactly when this is
`true`. -/
def lightboxActive (numTiles : Nat) (lbFound imgFound stageFound : Bool) : Bool :=
  if numTiles = 0 ∨ lbFound = false then false
  else if imgFound = false ∨ stageFound = false then false
  else true

/-- Embeds `nearlyEqual(a, b, eps) = Math.abs(a - b) <= eps`. -/
def nearlyEqual (a b eps : ℚ) : Bool := decide (|a - b| ≤ eps)

/-- Embeds `nearlyEqual(v, last, eps)` where `last` may still hold its
initial `NaN` (modelled as `none`): every comparison with `NaN` is false, so
the gate never suppresses the first write. -/
def nearlyEqualLast (v : ℚ) (last : Option ℚ) (eps : ℚ) : Bool :=
  match last with
  | none => false
  | some l => nearlyEqual v l eps

/-- Embeds one epsilon-gated channel write from `tick`:
`if (!nearlyEqual(v, last, eps)) { write v; last = v }`.  The returned value
is the committed output after the update. -/
def writeChannel (v : ℚ) (last : Option ℚ) (eps : ℚ) : Option ℚ :=
  if nearlyEqualLast v last eps = true then last else some v

/-- Last-written values of the three visual channels (`lastX`, `lastY`,
`lastR` in `main.js`), `none` for the initial `NaN`. -/
structure ChannelVals where
  x : Option ℚ
  y : Option ℚ
  r : Option ℚ
deriving DecidableEq

/-- Embeds the write section of `tick`: channel epsilons are `0.06` for the
two positions and `0.012` for the rotation, exactly as in the source. -/
def tickWrites (nx ny nr : ℚ) (c : ChannelVals) : ChannelVals :=
  { x := writeChannel nx c.x (6/100),
    y := writeChannel ny c.y (6/100),
    r := writeChannel nr c.r (12/1000) }

/-- Embeds `AMP_X = prefersReducedMotion ? 8 : (isMobile ? 24 : 56)`. -/
def ampX (reducedMotion isMobile : Bool) : ℚ :=
  if reducedMotion = true then 8 else if isMobile = true then 24 else 56

/-- Embeds `AMP_Y = prefersReducedMotion ? 6 : (isMobile ? 16 : 40)`. -/
def ampY (reducedMotion isMobile : Bool) : ℚ :=
  if reducedMotion = true then 6 else if isMobile = true then 16 else 40

/-- Embeds the x-channel computation of `tick` at timestamp `time`
(milliseconds): `t = time * 0.001`, `travelX = sin(t*0.10) * (AMP_X*0.55)`,
`x = travelX + sin(t*0.35)*AMP_X + sin(t*0.18)*(AMP_X*0.55)`. -/
def tickX (sinF : ℚ → ℚ) (reducedMotion isMobile : Bool) (time : ℚ) : ℚ :=
  let t := time * (1/1000)
  let ax := ampX reducedMotion isMobile
  let travelX := sinF (t * (10/100)) * (ax * (55/100))
  travelX + sinF (t * (35/100)) * ax + sinF (t * (18/100)) * (ax * (55/100))

/-- Embeds the y-channel computation of `tick`:
`travelY = cos(t*0.09) * (AMP_Y*0.55)`,
`y = travelY + cos(t*0.30)*AMP_Y + sin(t*0.22)*(AMP_Y*0.65)`. -/
def tickY (sinF cosF : ℚ → ℚ) (reducedMotion isMobile : Bool) (time : ℚ) : ℚ :=
  let t := time * (1/1000)
  let ay := ampY reducedMotion isMobile
  let travelY := cosF (t * (9/100)) * (ay * (55/100))
  travelY + cosF (t * (30/100)) * ay + sinF (t * (22/100)) * (ay * (65/100))

/-- Embeds the rotation computation of `tick`:
`rotation = sin(t*0.12) * (prefersReducedMotion ? 0.2 : 1.0)`. -/
def tickRot (sinF : ℚ → ℚ) (reducedMotion : Bool) (time : ℚ) : ℚ :=
  let t := time * (1/1000)
  sinF (t * (12/100)) * (if reducedMotion = true then 2/10 else 1)

/-- Formula for the x channel as the spec states it (section 4.1), written
over session time `t` in seconds:
`x = sin(t*0.10)*AMP_X*0.55 + sin(t*0.35)*AMP_X + sin(t*0.18)*AMP_X*0.55`. -/
def specAmbientX (sinF : ℚ → ℚ) (ax t : ℚ) : ℚ :=
  sinF (t * (10/100)) * ax * (55/100) + sinF (t * (35/100)) * ax
    + sinF (t * (18/100)) * ax * (55/100)

/-- Formula for the y channel as the spec states it:
`y = cos(t*0.09)*AMP_Y*0.55 + cos(t*0.30)*AMP_Y + sin(t*0.22)*AMP_Y*0.65`. -/
def specAmbientY (sinF cosF : ℚ → ℚ) (ay t : ℚ) : ℚ :=
  cosF (t * (9/100)) * ay * (55/100) + cosF (t * (30/100)) * ay
    + sinF (t * (22/100)) * ay * (65/100)

/-- Formula for the rotation channel as the spec states it:
`rotation = sin(t*0.12) * (0.2 if reducedMotion else 1.0)`. -/
def specAmbientRot (sinF : ℚ → ℚ) (reducedMotion : Bool) (t : ℚ) : ℚ :=
  sinF (t * (12/100)) * (if reducedMotion = true then 2/10 else 1)

/-- State of the ambient driver loop bookkeeping: `rafId` is the stored
callback handle (`null` as `none`); `scheduled` models the set of callback
handles currently pending inside the scheduler (what
`requestAnimationFrame` / `cancelAnimationFrame` add and remove); `fresh` is
the next handle the scheduler would hand out. -/
structure AmbientState where
  rafId : Option Nat
  scheduled : List Nat
  fresh : Nat
  lastFrame : ℚ
  lastTurb : ℚ
deriving DecidableEq

/-- Embeds `stop()`: `if (!rafId) return; cancelAnimationFrame(rafId);
rafId = null;`. -/
def ambientStop (s : AmbientState) : AmbientState :=
  match s.rafId with
  | none => s
  | some h => { s with rafId := none, scheduled := s.scheduled.erase h }

/-- Embeds `start()`: `if (rafId) return; lastFrame = 0; lastTurb = 0;
rafId = requestAnimationFrame(tick);`. -/
def ambientStart (s : AmbientState) : AmbientState :=
  match s.rafId with
  | some _ => s
  | none =>
      { s with lastFrame := 0, lastTurb := 0,
               rafId := some s.fresh,
               scheduled := s.scheduled ++ [s.fresh],
               fresh := s.fresh + 1 }

/-- Embeds one delivery of the scheduled `tick` callback at timestamp
`time`: the scheduler consumes the fired handle, and `tick` either skips the
frame (throttle: `time - lastFrame < 33`) or records the frame time, and in
both branches reschedules itself (`rafId = requestAnimationFrame(tick)`). -/
def tickStep (time : ℚ) (s : AmbientState) : AmbientState :=
  match s.rafId with
  | none => s
  | some h =>
      let s0 : AmbientState := { s with scheduled := s.scheduled.erase h }
      if time - s0.lastFrame < 33 then
        { s0 with rafId := some s0.fresh,
                  scheduled := s0.scheduled ++ [s0.fresh],
                  fresh := s0.fresh + 1 }
      else
        { s0 with lastFrame := time,
                  rafId := some s0.fresh,
                  scheduled := s0.scheduled ++ [s0.fresh],
                  fresh := s0.fresh + 1 }

/-- Scheduler sanity invariant tying the stored handle to the pending
callbacks: the pending list is exactly the stored handle (empty when
stopped). -/
def goodSched (s : AmbientState) : Prop :=
  s.scheduled = s.rafId.toList

/-- Concrete drag state used to evaluate the commit decision at viewport
width 100: `|Δx| = 30` exceeds `0.18 * 100` but not `0.18 * 320`. -/
def cexStateC1 : GestureState :=
  { numTiles := 5, index := 2, isOpen := true, pointerDown := true,
    startX := 50, deltaX := 30, startT := 0, activePointerId := 1, isAnimating := false }

/-- Concrete drag state: `Δx = -200` over 250 time-units (velocity `-0.8`). -/
def swipeStateC1 : GestureState :=
  { numTiles := 5, index := 2, isOpen := true, pointerDown := true,
    startX := 300, deltaX := -200, startT := 0, activePointerId := 3, isAnimating := false }

/-- Concrete open lightbox state with a commit/cancel animation in flight. -/
def animStateC2 : GestureState :=
  { numTiles := 5, index := 2, isOpen := true, pointerDown := false,
    startX := 0, deltaX := 0, startT := 0, activePointerId := 1, isAnimating := true }

/-- Second concrete animating state, used to instantiate the amended C2. -/
def animStateC2w : GestureState :=
  { numTiles := 5, index := 1, isOpen := true, pointerDown := false,
    startX := 0, deltaX := 0, startT := 0, activePointerId := 1, isAnimating := true }

/-- Concrete active drag session, pointer 1, with a large leftward offset. -/
def dragStateC3 : GestureState :=
  { numTiles := 5, index := 2, isOpen := true, pointerDown := true,
    startX := 600, deltaX := -500, startT := 0, activePointerId := 1, isAnimating := false }

/-- Concrete active drag session, pointer 1, small offset. -/
def dragStateC3w : GestureState :=
  { numTiles := 5, index := 2, isOpen := true, pointerDown := true,
    startX := 600, deltaX := -40, startT := 0, activePointerId := 1, isAnimating := false }

/-- Concrete committing drag used to instantiate the direction mapping. -/
def swipeStateC7 : GestureState :=
  { numTiles := 5, index := 2, isOpen := true, pointerDown := true,
    startX := 640, deltaX := -200, startT := 0, activePointerId := 4, isAnimating := false }

/-- Concrete drag state on a viewport narrower than 320 units. -/
def narrowStateC10 : GestureState :=
  { numTiles := 5, index := 0, isOpen := true, pointerDown := true,
    startX := 90, deltaX := -60, startT := 0, activePointerId := 1, isAnimating := false }

/-- Concrete last-written channel values for the ambient write gate. -/
def lastVals : ChannelVals := { x := some 10, y := some 20, r := some 0 }

/-- Concrete running ambient-loop state: handle 1 stored and pending. -/
def loopState : AmbientState :=
  { rafId := some 1, scheduled := [1], fresh := 2, lastFrame := 0, lastTurb := 0 }

/-- Truncated remainder agrees with Euclidean remainder once the dividend is
nonnegative, specialized to `setIndexVal`. -/
theorem setIndexVal_eq_emod (N : Nat) (k : Int) (hk : 0 ≤ k + N) :
    setIndexVal N k = (k + N) % N := by
  unfold setIndexVal jsMod
  exact Int.tmod_eq_emod hk (Int.natCast_nonneg N)

/-- Normalized indices land in `[0, N)` for any argument not below `-N`. -/
theorem setIndexVal_nonneg_lt (N : Nat) (hN : 1 ≤ N) (k : Int) (hk : -(N : Int) ≤ k) :
    0 ≤ setIndexVal N k ∧ setIndexVal N k < N := by
  have hk0 : 0 ≤ k + N := by omega
  have hNpos : (0 : Int) < N := by exact_mod_cast hN
  rw [setIndexVal_eq_emod N k hk0]
  exact ⟨Int.emod_nonneg _ (by omega), Int.emod_lt_of_pos _ hNpos⟩

/-- C4: `setIndex` normalizes its argument modulo the item count `N`,
supporting the negative inputs that arise (arguments ≥ `-N`): for every item
count `N ≥ 1`, `navigateTo(-1)` equals `navigateTo(N-1)`, `navigateTo(N)`
equals `navigateTo(0)`, and the stored index always lands in `[0, N)`. -/
theorem c4_navigateTo_wraps (N : Nat) (k : Int) (hN : 1 ≤ N) (hk : -(N : Int) ≤ k) :
    setIndexVal N (-1) = setIndexVal N ((N : Int) - 1)
    ∧ setIndexVal N ((N : Int)) = setIndexVal N 0
    ∧ (0 ≤ setIndexVal N k ∧ setIndexVal N k < N) :=
  by
  refine ⟨?_, ?_, setIndexVal_nonneg_lt N hN k hk⟩
  · rw [setIndexVal_eq_emod N (-1) (by omega), setIndexVal_eq_emod N ((N : Int) - 1) (by omega)]
    have h2 : (N : Int) - 1 + N = (-1 + N) + N * 1 := by ring
    rw [h2, Int.add_mul_emod_self_left]
  · rw [setIndexVal_eq_emod N ((N : Int)) (by omega), setIndexVal_eq_emod N 0 (by omega)]
    have h2 : (N : Int) + N = (0 + N) + N * 1 := by ring
    rw [h2, Int.add_mul_emod_self_left]

/-- Witness for C4 at `N = 5`, `k = -5`. -/
theorem c4_navigateTo_wraps_witness :
    (1 ≤ 5 ∧ -((5 : Nat) : Int) ≤ -5)
    ∧ (setIndexVal 5 (-1) = setIndexVal 5 (((5 : Nat) : Int) - 1)
       ∧ setIndexVal 5 (((5 : Nat) : Int)) = setIndexVal 5 0
       ∧ (0 ≤ setIndexVal 5 (-5) ∧ setIndexVal 5 (-5) < 5)) :=
  ⟨by norm_num, c4_navigateTo_wraps 5 (-5) (by norm_num) (by norm_num)⟩

/-- C9: the lightbox IIFE returns before attaching any handler when the tile
list is empty, so whenever the component is active the item count is at least
one, the modulus is nonzero, and index normalization is well defined (lands
in `[0, N)`). -/
theorem c9_empty_guard (n : Nat) (lbFound imgFound stageFound : Bool) (k : Int)
    (hact : lightboxActive n lbFound imgFound stageFound = true) (hk : -(n : Int) ≤ k) :
    1 ≤ n ∧ ((n : Int) ≠ 0)
    ∧ 0 ≤ setIndexVal n k ∧ setIndexVal n k < n := by
  have hn : 1 ≤ n := by
    rcases Nat.eq_zero_or_pos n with h | h
    · subst h
      simp [lightboxActive] at hact
    · exact h
  have hrange := setIndexVal_nonneg_lt n hn k hk
  exact ⟨hn, by omega, hrange.1, hrange.2⟩

/-- Witness for C9 at 5 tiles, all anchors present, argument `-1`. -/
theorem c9_empty_guard_witness :
    (lightboxActive 5 true true true = true ∧ -((5 : Nat) : Int) ≤ -1)
    ∧ (1 ≤ 5 ∧ (((5 : Nat) : Int) ≠ 0)
       ∧ 0 ≤ setIndexVal 5 (-1) ∧ setIndexVal 5 (-1) < 5) :=
  ⟨by norm_num [lightboxActive], c9_empty_guard 5 true true true (-1) (by norm_num [lightboxActive]) (by norm_num)⟩

/-- Evaluation of `finishSwipe` on the cancel branch: with an active drag, no
animation in flight, and neither threshold passed, the handler snaps back
(animates to offset 0, opacity 1) and only clears `pointerDown`. -/
theorem finishSwipe_cancel_eq (iw now : ℚ) (s : GestureState)
    (hp : s.pointerDown = true) (ha : s.isAnimating = false)
    (hcond : ¬(|s.deltaX| > max 320 iw * (18/100)
               ∨ |s.deltaX / max 1 (now - s.startT)| > 65/100)) :
    finishSwipe iw now s = ({ s with pointerDown := false }, FinishAction.cancelTo 0 1) := by
  simp only [finishSwipe, hp, ha]
  simp [hcond, ha]

/-- Evaluation of `finishSwipe` on the commit branch for a leftward drag
(`Δx < 0`): direction `next` (+1), slide-out target `-w`. -/
theorem finishSwipe_commit_neg (iw now : ℚ) (s : GestureState)
    (hp : s.pointerDown = true) (ha : s.isAnimating = false)
    (hd : s.deltaX < 0)
    (hcond : |s.deltaX| > max 320 iw * (18/100)
             ∨ |s.deltaX / max 1 (now - s.startT)| > 65/100) :
    finishSwipe iw now s =
      ({ s with pointerDown := false, index := setIndexVal s.numTiles (s.index + 1) },
       FinishAction.commitTo 1 (-(max 320 iw)) (9/10)) := by
  simp only [finishSwipe, hp, ha]
  simp [hcond, ha, hd]

/-- Evaluation of `finishSwipe` on the commit branch for a non-leftward drag
(`Δx ≥ 0`): direction `prev` (-1), slide-out target `w`. -/
theorem finishSwipe_commit_pos (iw now : ℚ) (s : GestureState)
    (hp : s.pointerDown = true) (ha : s.isAnimating = false)
    (hd : ¬(s.deltaX < 0))
    (hcond : |s.deltaX| > max 320 iw * (18/100)
             ∨ |s.deltaX / max 1 (now - s.startT)| > 65/100) :
    finishSwipe iw now s =
      ({ s with pointerDown := false, index := setIndexVal s.numTiles (s.index - 1) },
       FinishAction.commitTo (-1) (max 320 iw) (9/10)) := by
  simp only [finishSwipe, hp, ha]
  simp [hcond, ha, hd]
  rw [Int.add_neg_one]

/-- C1 counterexample: at raw viewport width 100 with `Δx = 30` and a slow
drag (1000 time-units), the claim's condition `|Δx| > 0.18 * W` holds, yet
the code cancels: the code thresholds on `max(320, W)`, not on `W`. -/
theorem c1_counterexample :
    (|cexStateC1.deltaX| > (18/100 : ℚ) * 100
     ∨ |cexStateC1.deltaX / (1000 - cexStateC1.startT)| > 65/100)
    ∧ (finishSwipe 100 1000 cexStateC1).2 = FinishAction.cancelTo 0 1
    ∧ isCommit (finishSwipe 100 1000 cexStateC1).2 = false := by
  refine ⟨Or.inl (by norm_num [cexStateC1]), ?_, ?_⟩
  · norm_num [finishSwipe, cexStateC1, abs_le]
  · norm_num [finishSwipe, cexStateC1, abs_le, isCommit]

/-- C1 (amended): for every completed drag while the lightbox is open (an
active drag session and no animation in flight), the gesture commits if and
only if `|Δx| > 0.18 * max(320, W)` or `|Δx / max(1, elapsed)| > 0.65`;
otherwise it cancels, animating back to zero offset and full opacity. -/
theorem c1_threshold_amended (iw now : ℚ) (s : GestureState)
    (hp : s.pointerDown = true) (ha : s.isAnimating = false) :
    (isCommit (finishSwipe iw now s).2 = true ↔
      (|s.deltaX| > max 320 iw * (18/100) ∨ |s.deltaX / max 1 (now - s.startT)| > 65/100))
    ∧ (isCommit (finishSwipe iw now s).2 = false →
        (finishSwipe iw now s).2 = FinishAction.cancelTo 0 1) := by
  by_cases hcond : |s.deltaX| > max 320 iw * (18/100)
      ∨ |s.deltaX / max 1 (now - s.startT)| > 65/100
  · by_cases hd : s.deltaX < 0
    · rw [finishSwipe_commit_neg iw now s hp ha hd hcond]
      simp [isCommit, hcond]
    · rw [finishSwipe_commit_pos iw now s hp ha hd hcond]
      simp [isCommit, hcond]
  · rw [finishSwipe_cancel_eq iw now s hp ha hcond]
    simp [isCommit, hcond]

/-- Witness for the amended C1 at viewport width 1000, `Δx = -200` over 250
time-units (the spec's own scenario: velocity 0.8 → commit). -/
theorem c1_threshold_amended_witness :
    (swipeStateC1.pointerDown = true ∧ swipeStateC1.isAnimating = false)
    ∧ ((isCommit (finishSwipe 1000 250 swipeStateC1).2 = true ↔
        (|swipeStateC1.deltaX| > max 320 1000 * (18/100)
         ∨ |swipeStateC1.deltaX / max 1 (250 - swipeStateC1.startT)| > 65/100))
       ∧ (isCommit (finishSwipe 1000 250 swipeStateC1).2 = false →
           (finishSwipe 1000 250 swipeStateC1).2 = FinishAction.cancelTo 0 1)) :=
  ⟨⟨rfl, rfl⟩, c1_threshold_amended 1000 250 swipeStateC1 rfl rfl⟩

/-- C2 counterexample: with a commit/cancel animation in flight
(`isAnimating = true`) and the lightbox open, an ArrowRight keydown still
navigates (the stored index changes from 2 to 3): the keydown handler checks
only `isOpen`, so keyboard navigation is not ignored while animating. -/
theorem c2_counterexample :
    animStateC2.isAnimating = true
    ∧ (keydown animStateC2 Key.arrowRight).index = 3
    ∧ (keydown animStateC2 Key.arrowRight).index ≠ animStateC2.index := by
  refine ⟨rfl, ?_, ?_⟩ <;>
    · norm_num [keydown, clickNext, animStateC2, setIndexVal, jsMod]
      decide

/-- C2 (amended): while `isAnimating` is true a new pointer-down does not
start a drag session, but keyboard ArrowLeft/ArrowRight (while open) and the
prev/next buttons are not gated by `isAnimating` and still navigate. -/
theorem c2_animating_amended (s : GestureState) (pid : Nat) (x t : ℚ)
    (ha : s.isAnimating = true) :
    pointerdown s pid x t = s
    ∧ (s.isOpen = true →
        keydown s Key.arrowRight = clickNext s ∧ keydown s Key.arrowLeft = clickPrev s)
    ∧ (clickNext s).index = setIndexVal s.numTiles (s.index + 1)
    ∧ (clickPrev s).index = setIndexVal s.numTiles (s.index - 1) := by
  refine ⟨?_, ?_, rfl, rfl⟩
  · simp [pointerdown, ha]
  · intro ho
    simp [keydown, ho]

/-- Witness for the amended C2 on a concrete animating state. -/
theorem c2_animating_amended_witness :
    animStateC2w.isAnimating = true
    ∧ (pointerdown animStateC2w 7 40 9 = animStateC2w
       ∧ (animStateC2w.isOpen = true →
           keydown animStateC2w Key.arrowRight = clickNext animStateC2w
           ∧ keydown animStateC2w Key.arrowLeft = clickPrev animStateC2w)
       ∧ (clickNext animStateC2w).index = setIndexVal animStateC2w.numTiles (animStateC2w.index + 1)
       ∧ (clickPrev animStateC2w).index = setIndexVal animStateC2w.numTiles (animStateC2w.index - 1)) :=
  ⟨rfl, c2_animating_amended animStateC2w 7 40 9 rfl⟩

/-- C3 counterexample: with an active drag session owned by pointer 1, a
pointer-up carrying pointer id 2 does finish the swipe (clears `pointerDown`,
commits, changes the index): the `pointerup`/`pointercancel` listeners call
`finishSwipe` without inspecting the event's pointer id. -/
theorem c3_counterexample :
    (2 : Nat) ≠ dragStateC3.activePointerId
    ∧ (pointerup 1000 100 dragStateC3 2).1.pointerDown = false
    ∧ isCommit (pointerup 1000 100 dragStateC3 2).2 = true
    ∧ (pointerup 1000 100 dragStateC3 2).1.index ≠ dragStateC3.index := by
  refine ⟨by decide, ?_, ?_, ?_⟩
  · norm_num [pointerup, finishSwipe, dragStateC3, abs_le]
  · norm_num [pointerup, finishSwipe, dragStateC3, abs_le, isCommit]
  · norm_num [pointerup, finishSwipe, dragStateC3, abs_le, setIndexVal, jsMod]
    decide

/-- C3 (amended): a pointer-move from a pointer id other than the session's
active pointer leaves the gesture state (in particular `currentDeltaX`)
unchanged, but pointer-up and pointer-cancel are not filtered by pointer id:
their effect is identical for every pointer id. -/
theorem c3_pointer_identity_amended (iw now x : ℚ) (s : GestureState) (pid pid2 : Nat)
    (hp : s.pointerDown = true) (hne : pid ≠ s.activePointerId) :
    pointermove s pid x = s
    ∧ pointerup iw now s pid = pointerup iw now s pid2
    ∧ pointercancel iw now s pid = pointercancel iw now s pid2 := by
  refine ⟨?_, rfl, rfl⟩
  simp [pointermove, hne]

/-- Witness for the amended C3: session owned by pointer 1, events from
pointers 9 and 5. -/
theorem c3_pointer_identity_amended_witness :
    (dragStateC3w.pointerDown = true ∧ (9 : Nat) ≠ dragStateC3w.activePointerId)
    ∧ (pointermove dragStateC3w 9 777 = dragStateC3w
       ∧ pointerup 1000 100 dragStateC3w 9 = pointerup 1000 100 dragStateC3w 5
       ∧ pointercancel 1000 100 dragStateC3w 9 = pointercancel 1000 100 dragStateC3w 5) :=
  ⟨⟨rfl, by decide⟩, c3_pointer_identity_amended 1000 100 777 dragStateC3w 9 5 rfl (by decide)⟩

/-- C5: on each executed ambient update, each channel is rewritten only if
the new value differs from the last written one by more than that channel's
epsilon (0.06 for x and y, 0.012 for rotation); at or below the epsilon the
committed output stays unchanged, above it the new value is committed. -/
theorem c5_write_suppression (lx ly lr nx ny nr : ℚ) (c : ChannelVals)
    (hx : c.x = some lx) (hy : c.y = some ly) (hr : c.r = some lr) :
    ((|nx - lx| ≤ 6/100 → (tickWrites nx ny nr c).x = some lx)
     ∧ (|nx - lx| > 6/100 → (tickWrites nx ny nr c).x = some nx))
    ∧ ((|ny - ly| ≤ 6/100 → (tickWrites nx ny nr c).y = some ly)
     ∧ (|ny - ly| > 6/100 → (tickWrites nx ny nr c).y = some ny))
    ∧ ((|nr - lr| ≤ 12/1000 → (tickWrites nx ny nr c).r = some lr)
     ∧ (|nr - lr| > 12/1000 → (tickWrites nx ny nr c).r = some nr)) := by
  refine ⟨⟨?_, ?_⟩, ⟨?_, ?_⟩, ⟨?_, ?_⟩⟩ <;> intro h
  · simp [tickWrites, writeChannel, nearlyEqualLast, nearlyEqual, hx, h]
  · simp [tickWrites, writeChannel, nearlyEqualLast, nearlyEqual, hx, not_le.mpr h]
  · simp [tickWrites, writeChannel, nearlyEqualLast, nearlyEqual, hy, h]
  · simp [tickWrites, writeChannel, nearlyEqualLast, nearlyEqual, hy, not_le.mpr h]
  · simp [tickWrites, writeChannel, nearlyEqualLast, nearlyEqual, hr, h]
  · simp [tickWrites, writeChannel, nearlyEqualLast, nearlyEqual, hr, not_le.mpr h]

/-- Witness for C5: x moves by 0.04 (suppressed), y by 1 (written), rotation
by 0.01 (suppressed). -/
theorem c5_write_suppression_witness :
    (lastVals.x = some 10 ∧ lastVals.y = some 20 ∧ lastVals.r = some 0)
    ∧ (((|(1004/100 : ℚ) - 10| ≤ 6/100 → (tickWrites (1004/100) 21 (1/100) lastVals).x = some 10)
        ∧ (|(1004/100 : ℚ) - 10| > 6/100 →
            (tickWrites (1004/100) 21 (1/100) lastVals).x = some (1004/100)))
       ∧ ((|(21 : ℚ) - 20| ≤ 6/100 → (tickWrites (1004/100) 21 (1/100) lastVals).y = some 20)
        ∧ (|(21 : ℚ) - 20| > 6/100 → (tickWrites (1004/100) 21 (1/100) lastVals).y = some 21))
       ∧ ((|(1/100 : ℚ) - 0| ≤ 12/1000 → (tickWrites (1004/100) 21 (1/100) lastVals).r = some 0)
        ∧ (|(1/100 : ℚ) - 0| > 12/1000 →
            (tickWrites (1004/100) 21 (1/100) lastVals).r = some (1/100)))) :=
  ⟨⟨rfl, rfl, rfl⟩, c5_write_suppression 10 20 0 (1004/100) 21 (1/100) lastVals rfl rfl rfl⟩

/-- C6: at session time `t = time/1000` seconds the tick computes exactly the
spec's drift formulas for x, y and rotation, and the amplitude pair is (8, 6)
under reduced motion, (24, 16) on a compact viewport, and (56, 40)
otherwise. -/
theorem c6_drift_formulas (sinF cosF : ℚ → ℚ) (rm mob : Bool) (time : ℚ) :
    tickX sinF rm mob time = specAmbientX sinF (ampX rm mob) (time * (1/1000))
    ∧ tickY sinF cosF rm mob time = specAmbientY sinF cosF (ampY rm mob) (time * (1/1000))
    ∧ tickRot sinF rm time = specAmbientRot sinF rm (time * (1/1000))
    ∧ ampX true mob = 8 ∧ ampY true mob = 6
    ∧ ampX false true = 24 ∧ ampY false true = 16
    ∧ ampX false false = 56 ∧ ampY false false = 40 := by
  refine ⟨?_, ?_, rfl, rfl, rfl, rfl, rfl, rfl, rfl⟩
  · simp only [tickX, specAmbientX]
    ring
  · simp only [tickY, specAmbientY]
    ring

/-- C7: for every committed drag starting from a normalized index, negative
`Δx` (leftward swipe) advances the index by +1 modulo the item count, and
positive `Δx` decrements it by 1 modulo the item count. -/
theorem c7_commit_direction (iw now : ℚ) (s : GestureState)
    (hp : s.pointerDown = true) (ha : s.isAnimating = false)
    (hidx0 : 0 ≤ s.index) (hidxN : s.index < (s.numTiles : Int))
    (hcommit : isCommit (finishSwipe iw now s).2 = true) :
    (s.deltaX < 0 →
      (finishSwipe iw now s).1.index = (s.index + 1) % (s.numTiles : Int))
    ∧ (0 < s.deltaX →
      (finishSwipe iw now s).1.index = (s.index - 1) % (s.numTiles : Int)) := by
  by_cases hcond : |s.deltaX| > max 320 iw * (18/100)
      ∨ |s.deltaX / max 1 (now - s.startT)| > 65/100
  · constructor
    · intro hd
      rw [finishSwipe_commit_neg iw now s hp ha hd hcond]
      show setIndexVal s.numTiles (s.index + 1) = (s.index + 1) % (s.numTiles : Int)
      rw [setIndexVal_eq_emod _ _ (by omega)]
      have h2 : s.index + 1 + (s.numTiles : Int) = (s.index + 1) + (s.numTiles : Int) * 1 := by
        ring
      rw [h2, Int.add_mul_emod_self_left]
    · intro hd
      have hd2 : ¬(s.deltaX < 0) := by linarith
      rw [finishSwipe_commit_pos iw now s hp ha hd2 hcond]
      show setIndexVal s.numTiles (s.index - 1) = (s.index - 1) % (s.numTiles : Int)
      rw [setIndexVal_eq_emod _ _ (by omega)]
      have h2 : s.index - 1 + (s.numTiles : Int) = (s.index - 1) + (s.numTiles : Int) * 1 := by
        ring
      rw [h2, Int.add_mul_emod_self_left]
  · rw [finishSwipe_cancel_eq iw now s hp ha hcond] at hcommit
    simp [isCommit] at hcommit

/-- Witness for C7: committed leftward drag (`Δx = -200`, width 1000) from
index 2 of 5 advances to index 3. -/
theorem c7_commit_direction_witness :
    (swipeStateC7.pointerDown = true ∧ swipeStateC7.isAnimating = false
     ∧ 0 ≤ swipeStateC7.index ∧ swipeStateC7.index < (swipeStateC7.numTiles : Int)
     ∧ isCommit (finishSwipe 1000 250 swipeStateC7).2 = true)
    ∧ ((swipeStateC7.deltaX < 0 →
        (finishSwipe 1000 250 swipeStateC7).1.index
          = (swipeStateC7.index + 1) % (swipeStateC7.numTiles : Int))
       ∧ (0 < swipeStateC7.deltaX →
        (finishSwipe 1000 250 swipeStateC7).1.index
          = (swipeStateC7.index - 1) % (swipeStateC7.numTiles : Int))) :=
  ⟨⟨rfl, rfl, by norm_num [swipeStateC7], by norm_num [swipeStateC7],
    by norm_num [finishSwipe, swipeStateC7, abs_le, isCommit]⟩,
   c7_commit_direction 1000 250 swipeStateC7 rfl rfl
     (by norm_num [swipeStateC7]) (by norm_num [swipeStateC7])
     (by norm_num [finishSwipe, swipeStateC7, abs_le, isCommit])⟩

/-- C8: from any state whose pending-callback list matches the stored handle,
`start` is idempotent (a second call is a no-op on an already running loop),
`stop` on a stopped loop is a no-op, `stop` is idempotent, after `start`
exactly one callback is pending, after `stop` none is, and `start`, `stop`
and a tick delivery all preserve the at-most-one-pending-handle invariant. -/
theorem c8_loop_idempotent (s : AmbientState) (time : ℚ) (hg : goodSched s) :
    ambientStart (ambientStart s) = ambientStart s
    ∧ ambientStop (ambientStop s) = ambientStop s
    ∧ (s.rafId = none → ambientStop s = s)
    ∧ (s.rafId.isSome = true → ambientStart s = s)
    ∧ (ambientStart s).scheduled.length = 1
    ∧ (ambientStop s).scheduled.length = 0
    ∧ goodSched (ambientStart s)
    ∧ goodSched (ambientStop s)
    ∧ goodSched (tickStep time s) := by
  obtain ⟨rid, sch, fr, lf, ltb⟩ := s
  unfold goodSched at hg
  cases rid with
  | none =>
      simp only [Option.toList] at hg
      subst hg
      refine ⟨rfl, rfl, fun _ => rfl, by simp [ambientStart], ?_, ?_, ?_, ?_, ?_⟩ <;>
        simp [ambientStart, ambientStop, tickStep, goodSched]
  | some h =>
      simp only [Option.toList] at hg
      subst hg
      refine ⟨rfl, ?_, by simp, fun _ => rfl, ?_, ?_, ?_, ?_, ?_⟩ <;>
        simp [ambientStart, ambientStop, tickStep, goodSched] <;>
        split_ifs <;> simp [goodSched]

/-- Witness for C8 on a running loop holding handle 1. -/
theorem c8_loop_idempotent_witness :
    goodSched loopState
    ∧ (ambientStart (ambientStart loopState) = ambientStart loopState
       ∧ ambientStop (ambientStop loopState) = ambientStop loopState
       ∧ (loopState.rafId = none → ambientStop loopState = loopState)
       ∧ (loopState.rafId.isSome = true → ambientStart loopState = loopState)
       ∧ (ambientStart loopState).scheduled.length = 1
       ∧ (ambientStop loopState).scheduled.length = 0
       ∧ goodSched (ambientStart loopState)
       ∧ goodSched (ambientStop loopState)
       ∧ goodSched (tickStep 50 loopState)) :=
  ⟨rfl, c8_loop_idempotent loopState 50 rfl⟩

/-- C10: both the drag-feedback opacity and the distance commit threshold are
computed from `max(320, innerWidth)`: on any viewport narrower than 320, the
effective width is 320, the commit threshold is `0.18 * 320 = 57.6`, the
opacity denominator is `320 * 0.9 = 288`, and both `setDragVisual` and
`finishSwipe` behave exactly as at width 320. -/
theorem c10_effective_width (iw dx now : ℚ) (s : GestureState) (h : iw < 320) :
    max 320 iw = 320
    ∧ max 320 iw * (18/100) = 288/5
    ∧ setDragVisual iw dx = (dx, 1 - clampQ (|dx| / 288) 0 1 * (25/100))
    ∧ setDragVisual iw dx = setDragVisual 320 dx
    ∧ finishSwipe iw now s = finishSwipe 320 now s := by
  have hm : max (320 : ℚ) iw = 320 := max_eq_left h.le
  refine ⟨hm, by rw [hm]; norm_num, ?_, ?_, ?_⟩
  · simp only [setDragVisual, hm]
    norm_num
  · simp only [setDragVisual, hm, max_self]
  · simp only [finishSwipe, hm, max_self]

/-- Witness for C10 at viewport width 100 with `Δx = -60`. -/
theorem c10_effective_width_witness :
    (100 : ℚ) < 320
    ∧ (max 320 (100 : ℚ) = 320
       ∧ max 320 (100 : ℚ) * (18/100) = 288/5
       ∧ setDragVisual 100 (-60) = (-60, 1 - clampQ (|(-60 : ℚ)| / 288) 0 1 * (25/100))
       ∧ setDragVisual 100 (-60) = setDragVisual 320 (-60)
       ∧ finishSwipe 100 70 narrowStateC10 = finishSwipe 320 70 narrowStateC10) :=
  ⟨by norm_num, c10_effective_width 100 (-60) 70 narrowStateC10 (by norm_num)⟩
